import Mathlib

/-!
Shallow embedding of the funnel state & follow-up scheduling engine of
`bot.py` (tnetPortal): the SQLite persistence layer (users, interactions,
services_viewed, purchases, followups), the engagement projection, the
job queue, and the handlers `start`, `log_user_interaction`,
`schedule_user_followup`, `schedule_followup` (the deferred fire
procedure), `handle_payment_confirmation` and the follow-up response
handlers.  Timestamps are opaque naturals; the keyed tables `users`
(PRIMARY KEY user_id) and `services_viewed` (kept unique per
(user_id, service) by the code) are modelled as partial maps, the
append-only tables as lists in insertion order.
-/

namespace TnetcBot

/-- A row of the `users` table: username, first_name, last_name,
join_date, last_interaction, purchased (BOOLEAN DEFAULT 0), campaign. -/
structure UserRow where
  username : Option String
  first_name : Option String
  last_name : Option String
  join_date : Nat
  last_interaction : Nat
  purchased : Bool
  campaign : Option String
deriving Repr, DecidableEq

/-- The structured payload of an interaction event; the code only ever
inspects the keys `service`, `plan`, `campaign` and `response`. -/
structure Payload where
  service : Option String := none
  plan : Option String := none
  campaign : Option String := none
  response_tag : Option String := none
deriving Repr, DecidableEq

/-- A row of the `interactions` table. -/
structure InteractionRow where
  user_id : Nat
  interaction_type : String
  interaction_data : Payload
  timestamp : Nat
deriving Repr, DecidableEq

/-- A row of the `services_viewed` table (per (user_id, service)):
view_count (DEFAULT 1) and last_viewed. -/
structure ServiceViewRow where
  view_count : Nat
  last_viewed : Nat
deriving Repr, DecidableEq

/-- A row of the `purchases` table. -/
structure PurchaseRow where
  user_id : Nat
  plan_code : String
  purchase_date : Nat
  price : String
deriving Repr, DecidableEq

/-- A row of the `followups` table: status TEXT DEFAULT 'scheduled',
response nullable. -/
structure FollowupRow where
  user_id : Nat
  service : String
  scheduled_date : Nat
  status : String
  response : Option String
deriving Repr, DecidableEq

/-- The five logical tables of the SQLite database. -/
structure DB where
  users : Nat → Option UserRow
  interactions : List InteractionRow
  services_viewed : Nat → String → Option ServiceViewRow
  purchases : List PurchaseRow
  followups : List FollowupRow

/-- The empty database produced by `create_tables`. -/
def emptyDB : DB where
  users := fun _ => none
  interactions := []
  services_viewed := fun _ _ => none
  purchases := []
  followups := []

/-- `save_user(user_id, username, first_name, last_name, campaign=None)`:
INSERT on first sight (join_date and last_interaction stamped now,
purchased defaulting to 0, campaign stored), else UPDATE of username,
first_name, last_name and last_interaction only. -/
def save_user (user_id : Nat) (username first_name last_name : Option String)
    (campaign : Option String) (now : Nat) (db : DB) : DB :=
  match db.users user_id with
  | none =>
      let r' : UserRow :=
        { username := username, first_name := first_name,
          last_name := last_name, join_date := now,
          last_interaction := now, purchased := false,
          campaign := campaign }
      { db with users := fun u => if u = user_id then some r' else db.users u }
  | some r =>
      let r' : UserRow :=
        { r with username := username, first_name := first_name,
                 last_name := last_name, last_interaction := now }
      { db with users := fun u => if u = user_id then some r' else db.users u }

/-- `log_interaction_to_db(user_id, interaction_type, interaction_data)`:
UPDATE users SET last_interaction; INSERT the interaction row. -/
def log_interaction_to_db (user_id : Nat) (interaction_type : String)
    (interaction_data : Payload) (now : Nat) (db : DB) : DB :=
  { db with
    users := fun u =>
      if u = user_id then
        (db.users u).map (fun r => { r with last_interaction := now })
      else db.users u
    interactions := db.interactions ++
      [{ user_id := user_id, interaction_type := interaction_type,
         interaction_data := interaction_data, timestamp := now }] }

/-- `update_service_view(user_id, service)`: INSERT (view_count DEFAULT 1,
last_viewed = now) when no row exists for (user_id, service), else
UPDATE view_count = view_count + 1, last_viewed = now. -/
def update_service_view (user_id : Nat) (service : String) (now : Nat)
    (db : DB) : DB :=
  match db.services_viewed user_id service with
  | none =>
      let v : ServiceViewRow := { view_count := 1, last_viewed := now }
      { db with services_viewed := fun u s =>
          if u = user_id ∧ s = service then some v
          else db.services_viewed u s }
  | some r =>
      let v : ServiceViewRow := { view_count := r.view_count + 1, last_viewed := now }
      { db with services_viewed := fun u s =>
          if u = user_id ∧ s = service then some v
          else db.services_viewed u s }

/-- `record_purchase(user_id, plan_code, price)`: INSERT a purchases row,
then UPDATE users SET purchased = 1 for that user. -/
def record_purchase (user_id : Nat) (plan_code price : String) (now : Nat)
    (db : DB) : DB :=
  { db with
    purchases := db.purchases ++
      [{ user_id := user_id, plan_code := plan_code,
         purchase_date := now, price := price }]
    users := fun u =>
      if u = user_id then
        (db.users u).map (fun r => { r with purchased := true })
      else db.users u }

/-- `record_followup(user_id, service, scheduled_date)`: INSERT a
followups row; status takes the column default 'scheduled', response
stays NULL. -/
def record_followup (user_id : Nat) (service : String) (scheduled_date : Nat)
    (db : DB) : DB :=
  { db with followups := db.followups ++
      [{ user_id := user_id, service := service,
         scheduled_date := scheduled_date, status := "scheduled",
         response := none }] }

/-- `update_followup_status(user_id, status, response=None)`: UPDATE of
every followups row WHERE user_id = ? AND status = 'scheduled'; the
response column is written only when a response argument is given. -/
def update_followup_status (user_id : Nat) (status : String)
    (response : Option String) (db : DB) : DB :=
  match response with
  | some resp =>
      { db with followups := db.followups.map (fun r =>
          if r.user_id = user_id ∧ r.status = "scheduled" then
            { r with status := status, response := some resp }
          else r) }
  | none =>
      { db with followups := db.followups.map (fun r =>
          if r.user_id = user_id ∧ r.status = "scheduled" then
            { r with status := status }
          else r) }

/-- `has_purchased(user_id)`: SELECT purchased; true exactly when a users
row exists with purchased = 1. -/
def has_purchased (user_id : Nat) (db : DB) : Bool :=
  match db.users user_id with
  | some r => r.purchased
  | none => false

/-- A per-user entry of the in-memory `user_engagement` dictionary. -/
structure Engagement where
  services_viewed : List String
  last_interaction : Nat
  purchased : Bool
deriving Repr, DecidableEq

/-- What a queued `run_once` job invokes when it fires.
`sendTestimonialUndefChatId` is the
`lambda ctx: send_testimonial_to_user(ctx, chat_id, service)` created in
`schedule_user_followup`, where `chat_id` is not bound in the enclosing
scope, so the call raises `NameError` when invoked;
`sendTestimonial` is the same call with a bound chat id (the testimonial
jobs of the welcome and purchase handlers); `fireFollowup` is the
deferred fire procedure `schedule_followup` with
`job.data = {user_id, service}`. -/
inductive JobCallback where
  | sendTestimonialUndefChatId (service : String)
  | sendTestimonial (chat_id : Nat) (service : String)
  | fireFollowup (user_id : Nat) (service : String)
deriving Repr, DecidableEq

/-- Whether a callback is the deferred fire procedure `schedule_followup`. -/
def JobCallback.isFireFollowup : JobCallback → Bool
  | .fireFollowup _ _ => true
  | _ => false

/-- A job in the `job_queue`. -/
structure Job where
  name : String
  callback : JobCallback
deriving Repr, DecidableEq

/-- The in-process state: the database, the `user_engagement` projection,
the pending `job_queue` jobs, the re-engagement follow-up messages the
fire procedure has sent (chat id and service), and the chat ids that
received testimonial blasts. -/
structure BotState where
  db : DB
  engagement : Nat → Option Engagement
  jobs : List Job
  followupMessages : List (Nat × String)
  testimonialsSent : List Nat

/-- The state at process start: empty tables, empty projection, no jobs. -/
def initState : BotState where
  db := emptyDB
  engagement := fun _ => none
  jobs := []
  followupMessages := []
  testimonialsSent := []

/-- The static plan → price table: `price = "Unknown"` followed by an
if/elif chain over the known plan codes.  The chain appears verbatim
both in `log_user_interaction` (payment_confirmation branch) and in
`handle_payment_confirmation`. -/
def plan_price (plan_code : String) : String :=
  if plan_code = "monthly" then "$200"
  else if plan_code = "quarterly" then "$500"
  else if plan_code = "annual" then "$1500"
  else if plan_code = "copytrade" then "$500"
  else if plan_code = "standard_trial" then "Free Trial"
  else if plan_code = "standard_monthly" then "$66/month"
  else if plan_code = "standard_lifetime" then "$300"
  else if plan_code = "vip_monthly" then "$300/month"
  else if plan_code = "vip_lifetime" then "$2000"
  else "Unknown"

/-- The plan codes the static table knows a price for. -/
def knownPlans : List String :=
  ["monthly", "quarterly", "annual", "copytrade", "standard_trial",
   "standard_monthly", "standard_lifetime", "vip_monthly", "vip_lifetime"]

/-- Point update of the in-memory engagement dictionary. -/
def setEngagement (m : Nat → Option Engagement) (uid : Nat) (e : Engagement) :
    Nat → Option Engagement :=
  fun u => if u = uid then some e else m u

/-- `log_user_interaction(update, interaction_type, data)`: saves the
user (no campaign argument), logs the interaction, refreshes the
in-memory engagement entry, then for `service_view` with a service in
the payload bumps the view counter (and appends to the set-like viewed
list), and for `payment_confirmation` marks the projection purchased
and, when the payload carries a plan, records the purchase at the
statically resolved price. -/
def log_user_interaction (user_id : Nat)
    (username first_name last_name : Option String)
    (interaction_type : String) (data : Payload) (now : Nat)
    (st : BotState) : BotState :=
  let db2 := log_interaction_to_db user_id interaction_type data now
    (save_user user_id username first_name last_name none now st.db)
  let e0 : Engagement :=
    match st.engagement user_id with
    | some e => e
    | none => { services_viewed := [], last_interaction := now, purchased := false }
  let e1 : Engagement := { e0 with last_interaction := now }
  let de : DB × Engagement :=
    if interaction_type = "service_view" then
      match data.service with
      | some service =>
          (update_service_view user_id service now db2,
           if service ∈ e1.services_viewed then e1
           else { e1 with services_viewed := e1.services_viewed ++ [service] })
      | none => (db2, e1)
    else if interaction_type = "payment_confirmation" then
      let e2 : Engagement := { e1 with purchased := true }
      match data.plan with
      | some plan_code =>
          (record_purchase user_id plan_code (plan_price plan_code) now db2, e2)
      | none => (db2, e2)
    else (db2, e1)
  { st with
    db := de.1
    engagement := setEngagement st.engagement user_id de.2 }

/-- 24 hours, the production follow-up delay, in seconds. -/
def followupDelaySeconds : Nat := 24 * 60 * 60

/-- The name `run_once` jobs are scheduled under:
`followup_<user_id>_<service>`. -/
def jobNameFull (user_id : Nat) (service : String) : String :=
  "followup_" ++ toString user_id ++ "_" ++ service

/-- The name `handle_payment_confirmation` looks jobs up by:
`followup_<user_id>`. -/
def jobNameUserOnly (user_id : Nat) : String :=
  "followup_" ++ toString user_id

/-- The deferred fire procedure `schedule_followup(context)` with
`job.data = {user_id, service}`: re-reads `has_purchased` and returns
silently when true; otherwise sends the re-engagement message
(`deliveryOk` models whether the transport send succeeds) and sets the
follow-up status to `sent`, or `failed` when the send raised. -/
def schedule_followup (user_id : Nat) (service : String) (deliveryOk : Bool)
    (st : BotState) : BotState :=
  if has_purchased user_id st.db then st
  else if deliveryOk then
    { st with
      followupMessages := st.followupMessages ++ [(user_id, service)]
      db := update_followup_status user_id "sent" none st.db }
  else
    { st with db := update_followup_status user_id "failed" none st.db }

/-- `schedule_user_followup(update, context, service)`: no-op when the
user has purchased or the job queue is unavailable; otherwise records a
followups row scheduled 24 hours out and queues a `run_once` job named
`followup_<user_id>_<service>` whose callback is
`lambda ctx: send_testimonial_to_user(ctx, chat_id, service)` — with
`chat_id` unbound in the enclosing scope. -/
def schedule_user_followup (user_id : Nat) (service : String)
    (jobQueueOk : Bool) (now : Nat) (st : BotState) : BotState :=
  if has_purchased user_id st.db then st
  else if jobQueueOk then
    { st with
      db := record_followup user_id service (now + followupDelaySeconds) st.db
      jobs := st.jobs ++
        [{ name := jobNameFull user_id service,
           callback := .sendTestimonialUndefChatId service }] }
  else st

/-- Invoking a queued job's callback.  `none` models the callback
raising before reaching any effect: the unbound `chat_id` raises
`NameError` as soon as the lambda body is evaluated. -/
def run_job_callback (cb : JobCallback) (deliveryOk : Bool)
    (st : BotState) : Option BotState :=
  match cb with
  | .sendTestimonialUndefChatId _ => none
  | .sendTestimonial chat_id _ =>
      some { st with testimonialsSent := st.testimonialsSent ++ [chat_id] }
  | .fireFollowup user_id service =>
      some (schedule_followup user_id service deliveryOk st)

/-- `handle_payment_confirmation(update, context)` for
`callback_data = payment_made_<plan>`: logs the payment_confirmation
interaction, records the purchase at the statically resolved price,
marks the user's scheduled followups `canceled` with response
`user_purchased`, and (when the job queue is available) removes the jobs
named `followup_<user_id>`. -/
def handle_payment_confirmation (user_id : Nat)
    (username first_name last_name : Option String) (plan : String)
    (jobQueueOk : Bool) (now : Nat) (st : BotState) : BotState :=
  let st1 := log_user_interaction user_id username first_name last_name
    "payment_confirmation" { plan := some plan } now st
  let db1 := record_purchase user_id plan (plan_price plan) now st1.db
  let db2 := update_followup_status user_id "canceled" (some "user_purchased") db1
  let jobs1 :=
    if jobQueueOk then
      st1.jobs.filter (fun j => j.name != jobNameUserOnly user_id)
    else st1.jobs
  { st1 with db := db2, jobs := jobs1 }

/-- `handle_followup_response(update, context)`: logs a
followup_response interaction and marks the user's scheduled followups
`responded` with the branch's response tag (`resume_service`,
`has_questions` or `not_interested`). -/
def handle_followup_response (user_id : Nat)
    (username first_name last_name : Option String)
    (response response_tag : String) (now : Nat) (st : BotState) : BotState :=
  let st1 := log_user_interaction user_id username first_name last_name
    "followup_response" { response_tag := some response } now st
  { st1 with
    db := update_followup_status user_id "responded" (some response_tag) st1.db }

/-- The four Entry variants dispatched by `start`. -/
inductive WelcomeKind where
  | eaFocused
  | signalFocused
  | vipFocused
  | regular
deriving Repr, DecidableEq

/-- The `/start` handler: the campaign is the first command argument
when one is present; the user is saved with it, the start_command
interaction is logged, and the Entry shown is chosen by exact comparison
of the campaign with the three recognized tokens, defaulting to the
regular welcome. -/
def start (user_id : Nat) (username first_name last_name : Option String)
    (args : List String) (now : Nat) (st : BotState) : BotState × WelcomeKind :=
  let campaign : Option String :=
    match args with
    | [] => none
    | a :: _ => some a
  let st1 : BotState :=
    { st with db := save_user user_id username first_name last_name campaign now st.db }
  let st2 := log_user_interaction user_id username first_name last_name
    "start_command" { campaign := campaign } now st1
  let w : WelcomeKind :=
    if campaign = some "ea_campaign" then .eaFocused
    else if campaign = some "signal_campaign" then .signalFocused
    else if campaign = some "vip_campaign" then .vipFocused
    else .regular
  (st2, w)

/-- The recorded events of the system, at handler granularity:
the `/start` command, a handler logging an interaction, scheduling a
follow-up, the payment confirmation button, a follow-up response button,
invoking the fire procedure, and a queued job firing (consuming the job,
then running its callback). -/
inductive Event where
  | startCmd (user_id : Nat) (username first_name last_name : Option String)
      (args : List String) (now : Nat)
  | interaction (user_id : Nat) (username first_name last_name : Option String)
      (interaction_type : String) (data : Payload) (now : Nat)
  | scheduleFollowup (user_id : Nat) (service : String) (jobQueueOk : Bool) (now : Nat)
  | paymentConfirmation (user_id : Nat) (username first_name last_name : Option String)
      (plan : String) (jobQueueOk : Bool) (now : Nat)
  | followupResponse (user_id : Nat) (username first_name last_name : Option String)
      (response response_tag : String) (now : Nat)
  | fireFollowup (user_id : Nat) (service : String) (deliveryOk : Bool)
  | runJob (i : Nat) (deliveryOk : Bool)

/-- One dispatch step. -/
def step (e : Event) (st : BotState) : BotState :=
  match e with
  | .startCmd uid un fn ln args now => (start uid un fn ln args now st).1
  | .interaction uid un fn ln ty data now =>
      log_user_interaction uid un fn ln ty data now st
  | .scheduleFollowup uid service jq now =>
      schedule_user_followup uid service jq now st
  | .paymentConfirmation uid un fn ln plan jq now =>
      handle_payment_confirmation uid un fn ln plan jq now st
  | .followupResponse uid un fn ln resp tag now =>
      handle_followup_response uid un fn ln resp tag now st
  | .fireFollowup uid service dOk => schedule_followup uid service dOk st
  | .runJob i dOk =>
      match st.jobs[i]? with
      | none => st
      | some j =>
          let st1 : BotState := { st with jobs := st.jobs.eraseIdx i }
          match run_job_callback j.callback dOk st1 with
          | some st2 => st2
          | none => st1

/-- Running a sequence of events from a state. -/
def run (events : List Event) (st : BotState) : BotState :=
  events.foldl (fun s e => step e s) st

/-! ### Frame lemmas for the persistence operations -/

theorem save_user_purchases (user_id : Nat) (un fn ln c : Option String)
    (now : Nat) (db : DB) :
    (save_user user_id un fn ln c now db).purchases = db.purchases := by
  unfold save_user; split <;> rfl

theorem save_user_interactions (user_id : Nat) (un fn ln c : Option String)
    (now : Nat) (db : DB) :
    (save_user user_id un fn ln c now db).interactions = db.interactions := by
  unfold save_user; split <;> rfl

theorem save_user_followups (user_id : Nat) (un fn ln c : Option String)
    (now : Nat) (db : DB) :
    (save_user user_id un fn ln c now db).followups = db.followups := by
  unfold save_user; split <;> rfl

theorem save_user_users_isSome (user_id : Nat) (un fn ln c : Option String)
    (now : Nat) (db : DB) :
    ((save_user user_id un fn ln c now db).users user_id).isSome = true := by
  unfold save_user; split <;> simp

theorem save_user_has_purchased (u user_id : Nat) (un fn ln c : Option String)
    (now : Nat) (db : DB) :
    has_purchased u (save_user user_id un fn ln c now db) = has_purchased u db := by
  by_cases h : u = user_id
  · subst h; cases hdb : db.users u <;> simp [save_user, has_purchased, hdb]
  · cases hdb : db.users user_id <;> simp [save_user, has_purchased, hdb, h]

theorem log_interaction_to_db_purchases (user_id : Nat) (ty : String)
    (d : Payload) (now : Nat) (db : DB) :
    (log_interaction_to_db user_id ty d now db).purchases = db.purchases := rfl

theorem log_interaction_to_db_followups (user_id : Nat) (ty : String)
    (d : Payload) (now : Nat) (db : DB) :
    (log_interaction_to_db user_id ty d now db).followups = db.followups := rfl

theorem log_interaction_to_db_interactions (user_id : Nat) (ty : String)
    (d : Payload) (now : Nat) (db : DB) :
    (log_interaction_to_db user_id ty d now db).interactions =
      db.interactions ++
        [{ user_id := user_id, interaction_type := ty,
           interaction_data := d, timestamp := now }] := rfl

theorem log_interaction_to_db_users_isSome (user_id : Nat) (ty : String)
    (d : Payload) (now : Nat) (db : DB) :
    ((log_interaction_to_db user_id ty d now db).users user_id).isSome =
      (db.users user_id).isSome := by
  unfold log_interaction_to_db; simp

theorem log_interaction_to_db_has_purchased (u user_id : Nat) (ty : String)
    (d : Payload) (now : Nat) (db : DB) :
    has_purchased u (log_interaction_to_db user_id ty d now db) =
      has_purchased u db := by
  by_cases h : u = user_id
  · subst h; cases hdb : db.users u <;>
      simp [log_interaction_to_db, has_purchased, hdb]
  · simp [log_interaction_to_db, has_purchased, h]

theorem update_service_view_users (user_id : Nat) (service : String)
    (now : Nat) (db : DB) :
    (update_service_view user_id service now db).users = db.users := by
  unfold update_service_view; split <;> rfl

theorem update_service_view_purchases (user_id : Nat) (service : String)
    (now : Nat) (db : DB) :
    (update_service_view user_id service now db).purchases = db.purchases := by
  unfold update_service_view; split <;> rfl

theorem update_service_view_followups (user_id : Nat) (service : String)
    (now : Nat) (db : DB) :
    (update_service_view user_id service now db).followups = db.followups := by
  unfold update_service_view; split <;> rfl

theorem update_service_view_has_purchased (u user_id : Nat) (service : String)
    (now : Nat) (db : DB) :
    has_purchased u (update_service_view user_id service now db) =
      has_purchased u db := by
  unfold has_purchased; rw [update_service_view_users]

theorem record_purchase_purchases (user_id : Nat) (plan_code price : String)
    (now : Nat) (db : DB) :
    (record_purchase user_id plan_code price now db).purchases =
      db.purchases ++
        [{ user_id := user_id, plan_code := plan_code,
           purchase_date := now, price := price }] := rfl

theorem record_purchase_followups (user_id : Nat) (plan_code price : String)
    (now : Nat) (db : DB) :
    (record_purchase user_id plan_code price now db).followups =
      db.followups := rfl

theorem record_purchase_users_isSome (user_id : Nat) (plan_code price : String)
    (now : Nat) (db : DB) :
    ((record_purchase user_id plan_code price now db).users user_id).isSome =
      (db.users user_id).isSome := by
  unfold record_purchase; simp

theorem record_purchase_has_purchased_self (user_id : Nat)
    (plan_code price : String) (now : Nat) (db : DB)
    (h : (db.users user_id).isSome = true) :
    has_purchased user_id (record_purchase user_id plan_code price now db) = true := by
  cases hdb : db.users user_id with
  | none => rw [hdb] at h; simp at h
  | some r => simp [record_purchase, has_purchased, hdb]

theorem record_purchase_has_purchased_other (u user_id : Nat)
    (plan_code price : String) (now : Nat) (db : DB) (h : u ≠ user_id) :
    has_purchased u (record_purchase user_id plan_code price now db) =
      has_purchased u db := by
  simp [record_purchase, has_purchased, h]

theorem record_followup_has_purchased (u user_id : Nat) (service : String)
    (d : Nat) (db : DB) :
    has_purchased u (record_followup user_id service d db) =
      has_purchased u db := rfl

theorem record_followup_purchases (user_id : Nat) (service : String)
    (d : Nat) (db : DB) :
    (record_followup user_id service d db).purchases = db.purchases := rfl

theorem record_followup_followups (user_id : Nat) (service : String)
    (d : Nat) (db : DB) :
    (record_followup user_id service d db).followups =
      db.followups ++
        [{ user_id := user_id, service := service, scheduled_date := d,
           status := "scheduled", response := none }] := rfl

/-- The per-row effect of `update_followup_status`: a row of that user in
status 'scheduled' gets the new status (and the response when one is
given); every other row is unchanged. -/
def applyFollowupUpdate (user_id : Nat) (status : String)
    (response : Option String) (r : FollowupRow) : FollowupRow :=
  if r.user_id = user_id ∧ r.status = "scheduled" then
    { r with status := status,
             response := match response with
                         | some x => some x
                         | none => r.response }
  else r

theorem update_followup_status_followups (user_id : Nat) (status : String)
    (response : Option String) (db : DB) :
    (update_followup_status user_id status response db).followups =
      db.followups.map (applyFollowupUpdate user_id status response) := by
  cases response <;> rfl

theorem update_followup_status_users (user_id : Nat) (status : String)
    (response : Option String) (db : DB) :
    (update_followup_status user_id status response db).users = db.users := by
  cases response <;> rfl

theorem update_followup_status_purchases (user_id : Nat) (status : String)
    (response : Option String) (db : DB) :
    (update_followup_status user_id status response db).purchases =
      db.purchases := by
  cases response <;> rfl

theorem update_followup_status_has_purchased (u user_id : Nat) (status : String)
    (response : Option String) (db : DB) :
    has_purchased u (update_followup_status user_id status response db) =
      has_purchased u db := by
  unfold has_purchased; rw [update_followup_status_users]

/-! ### The purchased-flag / purchases-table consistency invariant -/

/-- For every user, the purchased flag is set exactly when at least one
purchases row exists for that user. -/
def purchasedConsistent (db : DB) : Prop :=
  ∀ u : Nat, has_purchased u db = db.purchases.any (fun p => p.user_id == u)

theorem initState_pc : purchasedConsistent initState.db := fun _ => rfl

theorem record_purchase_pc (user_id : Nat) (plan_code price : String)
    (now : Nat) (db : DB) (hex : (db.users user_id).isSome = true)
    (h : purchasedConsistent db) :
    purchasedConsistent (record_purchase user_id plan_code price now db) := by
  intro u
  by_cases hu : u = user_id
  · subst hu
    rw [record_purchase_has_purchased_self _ _ _ _ _ hex, record_purchase_purchases]
    simp
  · rw [record_purchase_has_purchased_other _ _ _ _ _ _ hu,
        record_purchase_purchases, h u]
    simp [Ne.symm hu]

/-- Characterization of the database written by `log_user_interaction`:
the base writes (save_user, then the interaction log) always happen,
then the branch on the interaction type adds the service-view bump or
the purchase record. -/
theorem log_user_interaction_db (user_id : Nat) (un fn ln : Option String)
    (ty : String) (data : Payload) (now : Nat) (st : BotState) :
    (log_user_interaction user_id un fn ln ty data now st).db =
      (let db2 := log_interaction_to_db user_id ty data now
        (save_user user_id un fn ln none now st.db)
       if ty = "service_view" then
         match data.service with
         | some service => update_service_view user_id service now db2
         | none => db2
       else if ty = "payment_confirmation" then
         match data.plan with
         | some plan_code =>
             record_purchase user_id plan_code (plan_price plan_code) now db2
         | none => db2
       else db2) := by
  unfold log_user_interaction
  by_cases h1 : ty = "service_view"
  · subst h1
    cases hds : data.service <;> simp [hds]
  · by_cases h2 : ty = "payment_confirmation"
    · subst h2
      cases hdp : data.plan <;> simp [h1, hdp]
    · simp [h1, h2]

theorem log_user_interaction_users_isSome (user_id : Nat)
    (un fn ln : Option String) (ty : String) (data : Payload) (now : Nat)
    (st : BotState) :
    ((log_user_interaction user_id un fn ln ty data now st).db.users user_id).isSome
      = true := by
  have h2 : ((log_interaction_to_db user_id ty data now
      (save_user user_id un fn ln none now st.db)).users user_id).isSome = true := by
    rw [log_interaction_to_db_users_isSome]
    exact save_user_users_isSome _ _ _ _ _ _ _
  rw [log_user_interaction_db]
  split
  · cases hds : data.service
    · exact h2
    · rw [update_service_view_users]; exact h2
  · split
    · cases hdp : data.plan
      · exact h2
      · rw [record_purchase_users_isSome]; exact h2
    · exact h2

theorem log_user_interaction_pc (user_id : Nat) (un fn ln : Option String)
    (ty : String) (data : Payload) (now : Nat) (st : BotState)
    (h : purchasedConsistent st.db) :
    purchasedConsistent (log_user_interaction user_id un fn ln ty data now st).db := by
  have hdb2 : purchasedConsistent (log_interaction_to_db user_id ty data now
      (save_user user_id un fn ln none now st.db)) := by
    intro u
    rw [log_interaction_to_db_has_purchased, log_interaction_to_db_purchases,
        save_user_has_purchased, save_user_purchases]
    exact h u
  have hsome : ((log_interaction_to_db user_id ty data now
      (save_user user_id un fn ln none now st.db)).users user_id).isSome = true := by
    rw [log_interaction_to_db_users_isSome]
    exact save_user_users_isSome _ _ _ _ _ _ _
  rw [log_user_interaction_db]
  split
  · cases hds : data.service
    · exact hdb2
    · intro u
      rw [update_service_view_has_purchased, update_service_view_purchases]
      exact hdb2 u
  · split
    · cases hdp : data.plan
      · exact hdb2
      · exact record_purchase_pc _ _ _ _ _ hsome hdb2
    · exact hdb2

theorem log_user_interaction_followups (user_id : Nat)
    (un fn ln : Option String) (ty : String) (data : Payload) (now : Nat)
    (st : BotState) :
    (log_user_interaction user_id un fn ln ty data now st).db.followups =
      st.db.followups := by
  have h2 : (log_interaction_to_db user_id ty data now
      (save_user user_id un fn ln none now st.db)).followups = st.db.followups := by
    rw [log_interaction_to_db_followups, save_user_followups]
  rw [log_user_interaction_db]
  split
  · cases hds : data.service
    · exact h2
    · rw [update_service_view_followups]; exact h2
  · split
    · cases hdp : data.plan
      · exact h2
      · rw [record_purchase_followups]; exact h2
    · exact h2

theorem handle_payment_confirmation_pc (user_id : Nat)
    (un fn ln : Option String) (plan : String) (jq : Bool) (now : Nat)
    (st : BotState) (h : purchasedConsistent st.db) :
    purchasedConsistent (handle_payment_confirmation user_id un fn ln plan jq now st).db := by
  unfold handle_payment_confirmation
  intro u
  simp only []
  rw [update_followup_status_has_purchased, update_followup_status_purchases]
  exact record_purchase_pc _ _ _ _ _
    (log_user_interaction_users_isSome _ _ _ _ _ _ _ _)
    (log_user_interaction_pc _ _ _ _ _ _ _ _ h) u

theorem handle_followup_response_pc (user_id : Nat)
    (un fn ln : Option String) (resp tag : String) (now : Nat)
    (st : BotState) (h : purchasedConsistent st.db) :
    purchasedConsistent (handle_followup_response user_id un fn ln resp tag now st).db := by
  unfold handle_followup_response
  intro u
  simp only []
  rw [update_followup_status_has_purchased, update_followup_status_purchases]
  exact log_user_interaction_pc _ _ _ _ _ _ _ _ h u

theorem schedule_user_followup_pc (user_id : Nat) (service : String)
    (jq : Bool) (now : Nat) (st : BotState) (h : purchasedConsistent st.db) :
    purchasedConsistent (schedule_user_followup user_id service jq now st).db := by
  unfold schedule_user_followup
  split
  · exact h
  · split
    · intro u
      simp only []
      rw [record_followup_has_purchased, record_followup_purchases]
      exact h u
    · exact h

theorem schedule_followup_pc (user_id : Nat) (service : String) (dOk : Bool)
    (st : BotState) (h : purchasedConsistent st.db) :
    purchasedConsistent (schedule_followup user_id service dOk st).db := by
  unfold schedule_followup
  split
  · exact h
  · split <;>
    · intro u
      simp only []
      rw [update_followup_status_has_purchased, update_followup_status_purchases]
      exact h u

theorem start_pc (user_id : Nat) (un fn ln : Option String)
    (args : List String) (now : Nat) (st : BotState)
    (h : purchasedConsistent st.db) :
    purchasedConsistent (start user_id un fn ln args now st).1.db := by
  unfold start
  simp only []
  apply log_user_interaction_pc
  intro u
  simp only []
  rw [save_user_has_purchased, save_user_purchases]
  exact h u

theorem run_job_callback_pc (cb : JobCallback) (dOk : Bool) (st st2 : BotState)
    (h : purchasedConsistent st.db)
    (hrun : run_job_callback cb dOk st = some st2) :
    purchasedConsistent st2.db := by
  cases cb with
  | sendTestimonialUndefChatId service => simp [run_job_callback] at hrun
  | sendTestimonial chat_id service =>
      simp [run_job_callback] at hrun
      rw [← hrun]
      exact h
  | fireFollowup user_id service =>
      simp [run_job_callback] at hrun
      rw [← hrun]
      exact schedule_followup_pc _ _ _ _ h

theorem step_pc (e : Event) (st : BotState) (h : purchasedConsistent st.db) :
    purchasedConsistent (step e st).db := by
  cases e with
  | startCmd uid un fn ln args now => exact start_pc _ _ _ _ _ _ _ h
  | interaction uid un fn ln ty data now =>
      exact log_user_interaction_pc _ _ _ _ _ _ _ _ h
  | scheduleFollowup uid service jq now =>
      exact schedule_user_followup_pc _ _ _ _ _ h
  | paymentConfirmation uid un fn ln plan jq now =>
      exact handle_payment_confirmation_pc _ _ _ _ _ _ _ _ h
  | followupResponse uid un fn ln resp tag now =>
      exact handle_followup_response_pc _ _ _ _ _ _ _ _ h
  | fireFollowup uid service dOk => exact schedule_followup_pc _ _ _ _ h
  | runJob i dOk =>
      simp only [step]
      cases hj : st.jobs[i]? with
      | none => simp only [hj]; exact h
      | some j =>
          simp only [hj]
          cases hrun : run_job_callback j.callback dOk
              { st with jobs := st.jobs.eraseIdx i } with
          | none => simp only [hrun]; exact h
          | some st2 =>
              simp only [hrun]
              exact run_job_callback_pc j.callback dOk
                { st with jobs := st.jobs.eraseIdx i } st2 h hrun

theorem run_pc (events : List Event) (st : BotState)
    (h : purchasedConsistent st.db) :
    purchasedConsistent (run events st).db := by
  induction events generalizing st with
  | nil => exact h
  | cons e es ih => exact ih _ (step_pc e st h)

/-! ### Sequential service-view bumps -/

/-- N sequential calls of `update_service_view` for one (user, service),
at the given sequence of timestamps. -/
def sequential_service_views (user_id : Nat) (service : String)
    (ts : List Nat) (db : DB) : DB :=
  ts.foldl (fun d t => update_service_view user_id service t d) db

theorem update_service_view_self_none (user_id : Nat) (service : String)
    (now : Nat) (db : DB) (h : db.services_viewed user_id service = none) :
    (update_service_view user_id service now db).services_viewed user_id service =
      some { view_count := 1, last_viewed := now } := by
  unfold update_service_view
  rw [h]
  simp

theorem update_service_view_self_some (user_id : Nat) (service : String)
    (now : Nat) (db : DB) (r : ServiceViewRow)
    (h : db.services_viewed user_id service = some r) :
    (update_service_view user_id service now db).services_viewed user_id service =
      some { view_count := r.view_count + 1, last_viewed := now } := by
  unfold update_service_view
  rw [h]
  simp

theorem sequential_from_some (user_id : Nat) (service : String) :
    ∀ (ts : List Nat) (db : DB) (c lv : Nat),
    db.services_viewed user_id service = some { view_count := c, last_viewed := lv } →
    (sequential_service_views user_id service ts db).services_viewed user_id service =
      some { view_count := c + ts.length, last_viewed := ts.getLastD lv } := by
  intro ts
  induction ts with
  | nil =>
      intro db c lv h
      simpa [sequential_service_views] using h
  | cons t ts ih =>
      intro db c lv h
      have h1 := update_service_view_self_some user_id service t db _ h
      have h2 := ih (update_service_view user_id service t db) (c + 1) t h1
      simp only [sequential_service_views, List.foldl_cons] at h2 ⊢
      rw [List.length_cons, List.getLastD_cons]
      have h4 : c + (ts.length + 1) = c + 1 + ts.length := by omega
      rw [h4]
      exact h2

/-! ### Follow-up statuses around a confirmed payment -/

/-- The terminal follow-up statuses of the data model:
scheduled → {sent, failed, canceled, responded}. -/
def terminalStatuses : List String := ["sent", "failed", "canceled", "responded"]

/-- Row predicate: the row belongs to another user, or is still
'scheduled', or already carries a terminal status. -/
def scheduledOrTerminal (user_id : Nat) (r : FollowupRow) : Bool :=
  (r.user_id != user_id) || (r.status == "scheduled") ||
    terminalStatuses.contains r.status

/-- Row predicate: the row belongs to another user, or carries a
terminal status different from 'scheduled'. -/
def terminalNonScheduled (user_id : Nat) (r : FollowupRow) : Bool :=
  (r.user_id != user_id) ||
    (terminalStatuses.contains r.status && (r.status != "scheduled"))

theorem schedule_followup_purchased_noop (user_id : Nat) (service : String)
    (dOk : Bool) (st : BotState) (h : has_purchased user_id st.db = true) :
    schedule_followup user_id service dOk st = st := by
  unfold schedule_followup
  rw [h]
  simp

theorem handle_payment_confirmation_has_purchased (user_id : Nat)
    (un fn ln : Option String) (plan : String) (jq : Bool) (now : Nat)
    (st : BotState) :
    has_purchased user_id
      (handle_payment_confirmation user_id un fn ln plan jq now st).db = true := by
  unfold handle_payment_confirmation
  simp only []
  rw [update_followup_status_has_purchased]
  exact record_purchase_has_purchased_self _ _ _ _ _
    (log_user_interaction_users_isSome _ _ _ _ _ _ _ _)

theorem handle_payment_confirmation_followups (user_id : Nat)
    (un fn ln : Option String) (plan : String) (jq : Bool) (now : Nat)
    (st : BotState) :
    (handle_payment_confirmation user_id un fn ln plan jq now st).db.followups =
      st.db.followups.map
        (applyFollowupUpdate user_id "canceled" (some "user_purchased")) := by
  unfold handle_payment_confirmation
  simp only []
  rw [update_followup_status_followups, record_purchase_followups,
      log_user_interaction_followups]

theorem schedule_user_followup_all_scheduledOrTerminal (user_id uid2 : Nat)
    (service : String) (jq : Bool) (now : Nat) (st : BotState)
    (h : st.db.followups.all (scheduledOrTerminal uid2) = true) :
    (schedule_user_followup user_id service jq now st).db.followups.all
      (scheduledOrTerminal uid2) = true := by
  unfold schedule_user_followup
  split
  · exact h
  · split
    · simp only []
      rw [record_followup_followups, List.all_append, h]
      simp [scheduledOrTerminal]
    · exact h

theorem cancel_map_terminalNonScheduled (user_id : Nat) (l : List FollowupRow)
    (h : l.all (scheduledOrTerminal user_id) = true) :
    (l.map (applyFollowupUpdate user_id "canceled" (some "user_purchased"))).all
      (terminalNonScheduled user_id) = true := by
  rw [List.all_map]
  rw [List.all_eq_true] at h ⊢
  intro r hr
  have hp := h r hr
  simp only [Function.comp_apply]
  unfold applyFollowupUpdate
  by_cases hc : r.user_id = user_id ∧ r.status = "scheduled"
  · rw [if_pos hc]
    simp [terminalNonScheduled, terminalStatuses]
  · rw [if_neg hc]
    have hp' : r.user_id ≠ user_id ∨ r.status = "scheduled" ∨ r.status = "sent" ∨
        r.status = "failed" ∨ r.status = "canceled" ∨ r.status = "responded" := by
      simpa [scheduledOrTerminal, terminalStatuses, or_assoc] using hp
    rcases hp' with hp' | hp' | hp' | hp' | hp' | hp'
    · simp [terminalNonScheduled, hp']
    · have hu : r.user_id ≠ user_id := fun heq => hc ⟨heq, hp'⟩
      simp [terminalNonScheduled, hu]
    · simp [terminalNonScheduled, terminalStatuses, hp']
    · simp [terminalNonScheduled, terminalStatuses, hp']
    · simp [terminalNonScheduled, terminalStatuses, hp']
    · simp [terminalNonScheduled, terminalStatuses, hp']

/-- A plan code outside the static table resolves to the fallback
price "Unknown". -/
theorem plan_price_unknown (plan : String) (h : plan ∉ knownPlans) :
    plan_price plan = "Unknown" := by
  simp only [knownPlans, List.mem_cons, List.not_mem_nil, or_false, not_or] at h
  obtain ⟨h1, h2, h3, h4, h5, h6, h7, h8, h9⟩ := h
  simp [plan_price, h1, h2, h3, h4, h5, h6, h7, h8, h9]

/-! ### Example states -/

/-- A state whose only user (id 1) has purchased. -/
def exPurchasedState : BotState :=
  { initState with
    db := record_purchase 1 "monthly" "$200" 0
      (save_user 1 none none none none 0 emptyDB) }

/-- A follow-up for the "ea" offer scheduled for user 1 at time 0. -/
def exSchedState : BotState := schedule_user_followup 1 "ea" true 0 initState

/-- ... after which user 1 confirms payment for the monthly plan. -/
def exPaidState : BotState :=
  handle_payment_confirmation 1 (some "alice") none none "monthly" true 5 exSchedState

/-- Two follow-up rows for user 1, both in status 'scheduled'
(the "vip" row is the more recent one). -/
def exDb5 : DB :=
  { emptyDB with
    followups :=
      [{ user_id := 1, service := "ea", scheduled_date := 10,
         status := "scheduled", response := none },
       { user_id := 1, service := "vip", scheduled_date := 20,
         status := "scheduled", response := none }] }

/-- A database with one existing user (id 1, campaign "orig_campaign"). -/
def exDb10 : DB :=
  save_user 1 (some "alice") none none (some "orig_campaign") 10 emptyDB

/-! ### The claims -/

/-- C1: the deferred task arranged by `schedule_user_followup` does NOT
invoke the fire procedure `schedule_followup` for the (user, service)
pair: the queued callback is the testimonial lambda over the unbound
`chat_id`, firing it raises before reading any state (so `has_purchased`
is not re-read at fire time), and consuming the job leaves the state
unchanged apart from the job queue. -/
theorem scheduled_followup_task_is_not_fire_procedure :
    exSchedState.jobs =
      [{ name := "followup_1_ea",
         callback := JobCallback.sendTestimonialUndefChatId "ea" }] ∧
    exSchedState.jobs.map (fun j => j.callback.isFireFollowup) = [false] ∧
    run_job_callback (JobCallback.sendTestimonialUndefChatId "ea") true
      exSchedState = none ∧
    step (Event.runJob 0 true) exSchedState = { exSchedState with jobs := [] } :=
  ⟨rfl, rfl, rfl, rfl⟩

/-- C2: when a user confirms payment after a follow-up was scheduled and
the fire procedure runs afterwards, no re-engagement message is sent and
every follow-up row of that user is left in a terminal status different
from 'scheduled' (the confirmation handler cancels all of the user's
scheduled rows, and the fire procedure's `has_purchased` re-check makes
it return without touching anything). -/
theorem fire_after_purchase_silent_and_terminal (st : BotState) (user_id : Nat)
    (service svc2 plan : String) (un fn ln : Option String) (jq dOk : Bool)
    (t1 t2 : Nat)
    (hwf : st.db.followups.all (scheduledOrTerminal user_id) = true) :
    (schedule_followup user_id svc2 dOk
        (handle_payment_confirmation user_id un fn ln plan jq t2
          (schedule_user_followup user_id service true t1 st))).followupMessages =
      (handle_payment_confirmation user_id un fn ln plan jq t2
        (schedule_user_followup user_id service true t1 st)).followupMessages ∧
    (schedule_followup user_id svc2 dOk
        (handle_payment_confirmation user_id un fn ln plan jq t2
          (schedule_user_followup user_id service true t1 st))).db.followups.all
      (terminalNonScheduled user_id) = true := by
  have hp := handle_payment_confirmation_has_purchased user_id un fn ln plan jq t2
    (schedule_user_followup user_id service true t1 st)
  rw [schedule_followup_purchased_noop _ _ _ _ hp]
  refine ⟨rfl, ?_⟩
  rw [handle_payment_confirmation_followups]
  exact cancel_map_terminalNonScheduled _ _
    (schedule_user_followup_all_scheduledOrTerminal _ _ _ _ _ _ hwf)

theorem fire_after_purchase_witness :
    (schedule_followup 1 "ea" true exPaidState).followupMessages =
      exPaidState.followupMessages ∧
    (schedule_followup 1 "ea" true exPaidState).db.followups.all
      (terminalNonScheduled 1) = true :=
  fire_after_purchase_silent_and_terminal initState 1 "ea" "ea" "monthly"
    (some "alice") none none true true 0 5 rfl

/-- C3: after any sequence of recorded events from the initial state, a
user's purchased flag is set exactly when at least one purchases row
exists for that user. -/
theorem purchased_iff_purchase_row (events : List Event) (u : Nat) :
    has_purchased u (run events initState).db =
      (run events initState).db.purchases.any (fun p => p.user_id == u) :=
  run_pc events initState initState_pc u

/-- C4: on confirmed payment the handler marks the user's scheduled
FollowUp rows 'canceled', but the outstanding timer survives, because the
cancellation looks up jobs named `followup_<user_id>` while the timer was
scheduled under `followup_<user_id>_<service>`; with no pending follow-up
the (total) call leaves the followups table unchanged. -/
theorem payment_confirmation_timer_not_removed :
    exPaidState.jobs =
      [{ name := "followup_1_ea",
         callback := JobCallback.sendTestimonialUndefChatId "ea" }] ∧
    exPaidState.db.followups.map (fun r => r.status) = ["canceled"] ∧
    jobNameUserOnly 1 = "followup_1" ∧
    (handle_payment_confirmation 2 none none none "monthly" true 9
        exPaidState).db.followups = exPaidState.db.followups :=
  ⟨rfl, rfl, rfl, rfl⟩

/-- C5 (counterexample): with two rows in status 'scheduled' for user 1,
`update_followup_status` rewrites BOTH rows, not only the most recent
one: the older "ea" row is changed as well. -/
theorem update_followup_status_updates_all_scheduled_rows :
    (update_followup_status 1 "responded" (some "resume_service") exDb5).followups =
      [{ user_id := 1, service := "ea", scheduled_date := 10,
         status := "responded", response := some "resume_service" },
       { user_id := 1, service := "vip", scheduled_date := 20,
         status := "responded", response := some "resume_service" }] := rfl

/-- C5 (amended): `update_followup_status` changes the status (and, when
given, the response) of EVERY row in status 'scheduled' for that user,
leaving all other followup rows and all other tables unchanged. -/
theorem update_followup_status_scope (user_id : Nat) (status : String)
    (response : Option String) (db : DB) :
    (update_followup_status user_id status response db).followups =
      db.followups.map (applyFollowupUpdate user_id status response) ∧
    (update_followup_status user_id status response db).users = db.users ∧
    (update_followup_status user_id status response db).purchases =
      db.purchases ∧
    (update_followup_status user_id status response db).interactions =
      db.interactions ∧
    (update_followup_status user_id status response db).services_viewed =
      db.services_viewed := by
  refine ⟨update_followup_status_followups _ _ _ _,
    update_followup_status_users _ _ _ _,
    update_followup_status_purchases _ _ _ _, ?_, ?_⟩ <;> cases response <;> rfl

/-- C6: scheduling a follow-up for a user whose purchased flag is already
set is a no-op: the state (followups table and job queue included) is
returned unchanged. -/
theorem schedule_user_followup_noop_when_purchased (user_id : Nat)
    (service : String) (jq : Bool) (now : Nat) (st : BotState)
    (h : has_purchased user_id st.db = true) :
    schedule_user_followup user_id service jq now st = st := by
  unfold schedule_user_followup
  rw [h]
  simp

theorem schedule_user_followup_noop_witness :
    schedule_user_followup 1 "ea" true 5 exPurchasedState = exPurchasedState :=
  schedule_user_followup_noop_when_purchased 1 "ea" true 5 exPurchasedState rfl

/-- C7: starting from no row for the (user, service) pair, N ≥ 1
sequential `update_service_view` calls leave view_count = N and
last_viewed equal to the timestamp of the last call. -/
theorem sequential_service_views_count (user_id : Nat) (service : String)
    (ts : List Nat) (tN : Nat) (db : DB)
    (h0 : db.services_viewed user_id service = none) :
    (sequential_service_views user_id service (ts ++ [tN]) db).services_viewed
      user_id service =
      some { view_count := ts.length + 1, last_viewed := tN } := by
  cases ts with
  | nil =>
      have h1 := update_service_view_self_none user_id service tN db h0
      simpa [sequential_service_views] using h1
  | cons t0 ts2 =>
      have h1 := update_service_view_self_none user_id service t0 db h0
      have h2 := sequential_from_some user_id service (ts2 ++ [tN])
        (update_service_view user_id service t0 db) 1 t0 h1
      simp only [List.cons_append, sequential_service_views, List.foldl_cons] at h2 ⊢
      rw [List.getLastD_concat] at h2
      have h3 : 1 + (ts2 ++ [tN]).length = ts2.length + 1 + 1 := by
        simp [List.length_append]
        omega
      rw [h3] at h2
      simpa using h2

theorem sequential_service_views_count_witness :
    (sequential_service_views 1 "ea" ([3] ++ [7]) emptyDB).services_viewed 1 "ea" =
      some { view_count := 2, last_viewed := 7 } :=
  sequential_service_views_count 1 "ea" [3] 7 emptyDB rfl

/-- C8 (counterexample): a payment_confirmation event with a plan code
outside the static table records the purchase with the literal price
"Unknown" — capital U — not "unknown". -/
theorem unknown_plan_price_is_capitalized :
    ((log_user_interaction 1 none none none "payment_confirmation"
        { plan := some "mystery_plan" } 7 initState).db.purchases.map
      (fun p => p.price)) = ["Unknown"] ∧
    (("Unknown" : String) == "unknown") = false :=
  ⟨rfl, rfl⟩

/-- C8 (amended): a payment_confirmation event carrying a plan code
outside the static table still records the purchase, with price
"Unknown"; one carrying no plan code skips the purchase side effect but
still logs the base interaction. -/
theorem payment_confirmation_payload_handling (user_id : Nat)
    (un fn ln : Option String) (plan : String) (now : Nat) (st : BotState)
    (h : plan ∉ knownPlans) :
    (log_user_interaction user_id un fn ln "payment_confirmation"
        { plan := some plan } now st).db.purchases =
      st.db.purchases ++
        [{ user_id := user_id, plan_code := plan, purchase_date := now,
           price := "Unknown" }] ∧
    (log_user_interaction user_id un fn ln "payment_confirmation"
        { plan := none } now st).db.purchases = st.db.purchases ∧
    (log_user_interaction user_id un fn ln "payment_confirmation"
        { plan := none } now st).db.interactions =
      st.db.interactions ++
        [{ user_id := user_id, interaction_type := "payment_confirmation",
           interaction_data := { plan := none }, timestamp := now }] := by
  refine ⟨?_, ?_, ?_⟩
  · rw [log_user_interaction_db]
    show (record_purchase user_id plan (plan_price plan) now
      (log_interaction_to_db user_id "payment_confirmation" { plan := some plan }
        now (save_user user_id un fn ln none now st.db))).purchases = _
    rw [record_purchase_purchases, log_interaction_to_db_purchases,
      save_user_purchases, plan_price_unknown plan h]
  · rw [log_user_interaction_db]
    show (log_interaction_to_db user_id "payment_confirmation" { plan := none }
      now (save_user user_id un fn ln none now st.db)).purchases = _
    rw [log_interaction_to_db_purchases, save_user_purchases]
  · rw [log_user_interaction_db]
    show (log_interaction_to_db user_id "payment_confirmation" { plan := none }
      now (save_user user_id un fn ln none now st.db)).interactions = _
    rw [log_interaction_to_db_interactions, save_user_interactions]

theorem payment_confirmation_payload_handling_witness :
    (log_user_interaction 1 none none none "payment_confirmation"
        { plan := some "mystery_plan" } 7 initState).db.purchases =
      initState.db.purchases ++
        [{ user_id := 1, plan_code := "mystery_plan", purchase_date := 7,
           price := "Unknown" }] ∧
    (log_user_interaction 1 none none none "payment_confirmation"
        { plan := none } 7 initState).db.purchases = initState.db.purchases ∧
    (log_user_interaction 1 none none none "payment_confirmation"
        { plan := none } 7 initState).db.interactions =
      initState.db.interactions ++
        [{ user_id := 1, interaction_type := "payment_confirmation",
           interaction_data := { plan := none }, timestamp := 7 }] :=
  payment_confirmation_payload_handling 1 none none none "mystery_plan" 7
    initState (by decide)

/-- C9: the Entry shown by the `/start` handler is keyed by the campaign
token: `ea_campaign`, `signal_campaign` and `vip_campaign` select their
focused welcomes, and any other token — or no token at all — selects the
regular welcome. -/
theorem start_entry_selection (user_id : Nat) (un fn ln : Option String)
    (now : Nat) (st : BotState) (t : String) (rest : List String)
    (h1 : t ≠ "ea_campaign") (h2 : t ≠ "signal_campaign")
    (h3 : t ≠ "vip_campaign") :
    (start user_id un fn ln ("ea_campaign" :: rest) now st).2 =
      WelcomeKind.eaFocused ∧
    (start user_id un fn ln ("signal_campaign" :: rest) now st).2 =
      WelcomeKind.signalFocused ∧
    (start user_id un fn ln ("vip_campaign" :: rest) now st).2 =
      WelcomeKind.vipFocused ∧
    (start user_id un fn ln (t :: rest) now st).2 = WelcomeKind.regular ∧
    (start user_id un fn ln ([] : List String) now st).2 = WelcomeKind.regular := by
  refine ⟨?_, ?_, ?_, ?_, ?_⟩ <;> simp [start, h1, h2, h3]

theorem start_entry_selection_witness :
    (start 1 none none none ["ea_campaign"] 0 initState).2 =
      WelcomeKind.eaFocused ∧
    (start 1 none none none ["signal_campaign"] 0 initState).2 =
      WelcomeKind.signalFocused ∧
    (start 1 none none none ["vip_campaign"] 0 initState).2 =
      WelcomeKind.vipFocused ∧
    (start 1 none none none ["other_campaign"] 0 initState).2 =
      WelcomeKind.regular ∧
    (start 1 none none none ([] : List String) 0 initState).2 =
      WelcomeKind.regular :=
  start_entry_selection 1 none none none 0 initState "other_campaign" []
    (by decide) (by decide) (by decide)

/-- C10: saving an existing user again updates only username, first_name,
last_name and last_interaction; join_date, purchased and campaign keep
their stored values even when a different (or first non-null) campaign
argument is supplied. -/
theorem save_user_existing_preserves_immutable_fields (user_id : Nat)
    (un fn ln campaign : Option String) (now : Nat) (db : DB) (r : UserRow)
    (h : db.users user_id = some r) :
    (save_user user_id un fn ln campaign now db).users user_id =
      some { r with username := un, first_name := fn, last_name := ln,
                    last_interaction := now } := by
  unfold save_user
  rw [h]
  simp

theorem save_user_existing_preserves_witness :
    (save_user 1 (some "bob") (some "B") none (some "new_campaign") 99
        exDb10).users 1 =
      some { username := some "bob", first_name := some "B", last_name := none,
             join_date := 10, last_interaction := 99, purchased := false,
             campaign := some "orig_campaign" } :=
  save_user_existing_preserves_immutable_fields 1 (some "bob") (some "B") none
    (some "new_campaign") 99 exDb10
    { username := some "alice", first_name := none, last_name := none,
      join_date := 10, last_interaction := 10, purchased := false,
      campaign := some "orig_campaign" } rfl

end TnetcBot
